import Mathlib

/-!
Shallow embedding of the per-frame simulation loop of `src/main.rs`
(the nobodys-hero-gba demo).

The program is a single unbounded loop over a state consisting of the
ball's and Dave's logical positions and velocities (Rust `i32`, modelled
as `Int`), the staged sprite attributes of the ball, Dave and the static
three-segment paddle, and the input snapshot read each iteration.
Each iteration integrates positions with clamping, derives fresh
velocities from the current input snapshot, stages the positions (cast
to `u16`) on the sprite handles, waits for vblank, commits, and finally
advances the input controller.
-/

/-- `agb::display::WIDTH` on the reference platform. -/
def WIDTH : Int := 240

/-- `agb::display::HEIGHT` on the reference platform. -/
def HEIGHT : Int := 160

/-- The per-frame view of the input controller: the two d-pad axis
trinaries (`x_tri`, `y_tri`, each intended to be in {-1,0,1}) and
whether the A button is pressed. -/
structure InputSnapshot where
  x_tri : Int
  y_tri : Int
  a_pressed : Bool
  deriving DecidableEq

/-- The contract of `agb`'s `ButtonController`: `x_tri()` and `y_tri()`
return a trinary in {-1, 0, 1}. -/
def ValidSnapshot (i : InputSnapshot) : Prop :=
  (i.x_tri = -1 ∨ i.x_tri = 0 ∨ i.x_tri = 1) ∧
  (i.y_tri = -1 ∨ i.y_tri = 0 ∨ i.y_tri = 1)

/-- Rust's `i32::clamp(lo, hi)`:
`if self < min { min } else if self > max { max } else { self }`. -/
def clamp (x lo hi : Int) : Int :=
  if x < lo then lo else if hi < x then hi else x

/-- Velocity derivation for the x axis, per the loop body:
`x_velocity = input.x_tri() as i32; if input.is_pressed(Button::A)
{ x_velocity = x_velocity * 2 }`. -/
def deriveVelX (i : InputSnapshot) : Int :=
  if i.a_pressed then i.x_tri * 2 else i.x_tri

/-- Velocity derivation for the y axis, per the loop body. -/
def deriveVelY (i : InputSnapshot) : Int :=
  if i.a_pressed then i.y_tri * 2 else i.y_tri

/-- Rust's truncating cast `as u16`: the value modulo 2^16. -/
def u16cast (n : Int) : Nat := (n % 65536).toNat

/-- Staged attributes of a single-sprite entity (the ball, Dave), whose
coordinates are staged through `set_x`/`set_y`, which take `u16`. -/
structure SpriteObj where
  x : Nat
  y : Nat
  visible : Bool
  deriving DecidableEq

/-- Staged attributes of one paddle segment sprite; its coordinates are
staged through `set_position`, which takes `i32` pairs. -/
structure ObjAttrs where
  x : Int
  y : Int
  visible : Bool
  hflip : Bool
  vflip : Bool
  deriving DecidableEq

/-- A fresh object handle from `object_sprite`: hidden, no flips,
position (0, 0). -/
def freshObj : ObjAttrs :=
  { x := 0, y := 0, visible := false, hflip := false, vflip := false }

/-- The `Paddle` struct: three segment sprite handles. (`end` is a Lean
keyword, so the third field is named `end_`.) -/
structure Paddle where
  start : ObjAttrs
  mid : ObjAttrs
  end_ : ObjAttrs
  deriving DecidableEq

/-- `Paddle::set_position`: x goes to every segment, y with per-segment
vertical offsets 0, 16, 32. -/
def Paddle.set_position (p : Paddle) (x y : Int) : Paddle :=
  { start := { p.start with x := x, y := y },
    mid := { p.mid with x := x, y := y + 16 },
    end_ := { p.end_ with x := x, y := y + 32 } }

/-- `Paddle::new`: allocates the three segment sprites, shows all of
them, vertically flips the end segment only, and sets the initial
position. -/
def Paddle.new (start_x start_y : Int) : Paddle :=
  let paddle_start : ObjAttrs := { freshObj with visible := true }
  let paddle_mid : ObjAttrs := { freshObj with visible := true }
  let paddle_end : ObjAttrs := { freshObj with vflip := true, visible := true }
  Paddle.set_position ⟨paddle_start, paddle_mid, paddle_end⟩ start_x start_y

/-- The right paddle as `main` builds it: `Paddle::new(&object,
240 - 16 - 8, 8)` followed by `set_hflip(true)` on all three segments. -/
def mainPaddleB : Paddle :=
  let p := Paddle.new (240 - 16 - 8) 8
  { start := { p.start with hflip := true },
    mid := { p.mid with hflip := true },
    end_ := { p.end_ with hflip := true } }

/-- The mutable state of `main`'s loop: logical positions and velocities
of the ball and Dave, and the staged sprite attributes of the ball,
Dave and the paddle. -/
structure State where
  ball_x : Int
  ball_y : Int
  x_velocity : Int
  y_velocity : Int
  dave_x : Int
  dave_y : Int
  dave_vel_x : Int
  dave_vel_y : Int
  ball_obj : SpriteObj
  dave_obj : SpriteObj
  paddle_b : Paddle
  deriving DecidableEq

/-- The state right before the loop starts: ball at (50, 50), Dave at
(120, 80), all velocities 0, ball and Dave sprites shown at their
positions, paddle as set up by `main`. -/
def initState : State :=
  { ball_x := 50, ball_y := 50, x_velocity := 0, y_velocity := 0,
    dave_x := 120, dave_y := 80, dave_vel_x := 0, dave_vel_y := 0,
    ball_obj := { x := 50, y := 50, visible := true },
    dave_obj := { x := 120, y := 80, visible := true },
    paddle_b := mainPaddleB }

/-- One iteration of `main`'s loop, reading input snapshot `i`:
integrate the ball with the previous velocity (clamped to
`[0, WIDTH-16] × [0, HEIGHT-16]`), derive the ball's new velocity from
`i`, stage the ball position (cast `as u16`); then the same for Dave
with y clamped to `[-8, HEIGHT-32]`; the input is advanced only at the
end of the iteration, so both derivations read the same snapshot. -/
def stepFrame (s : State) (i : InputSnapshot) : State :=
  let ball_x := clamp (s.ball_x + s.x_velocity) 0 (WIDTH - 16)
  let ball_y := clamp (s.ball_y + s.y_velocity) 0 (HEIGHT - 16)
  let dave_x := clamp (s.dave_x + s.dave_vel_x) 0 (WIDTH - 16)
  let dave_y := clamp (s.dave_y + s.dave_vel_y) (-8) (HEIGHT - 32)
  { s with
    ball_x := ball_x, ball_y := ball_y,
    x_velocity := deriveVelX i, y_velocity := deriveVelY i,
    ball_obj := { s.ball_obj with x := u16cast ball_x, y := u16cast ball_y },
    dave_x := dave_x, dave_y := dave_y,
    dave_vel_x := deriveVelX i, dave_vel_y := deriveVelY i,
    dave_obj := { s.dave_obj with x := u16cast dave_x, y := u16cast dave_y } }

/-- `n` iterations of the loop starting from state `s`, where the input
snapshot read by iteration `k` is `inp k`. -/
def runFrom (s : State) (inp : Nat → InputSnapshot) : Nat → State
  | 0 => s
  | n + 1 => stepFrame (runFrom s inp n) (inp n)

/-- `n` iterations of the loop from the program's initial state. -/
def run (inp : Nat → InputSnapshot) (n : Nat) : State :=
  runFrom initState inp n

/-- The clamping scenario's start state: the moving entity (the ball) at
(0, 50). -/
def leftEdgeState : State :=
  { initState with
    ball_x := 0, ball_y := 50,
    ball_obj := { x := 0, y := 50, visible := true } }

/-- Sustained axis input (-1, 0) with no modifier. -/
def leftInput : Nat → InputSnapshot := fun _ => ⟨-1, 0, false⟩

/-- Sustained axis input (1, 0) with no modifier. -/
def rightInput : Nat → InputSnapshot := fun _ => ⟨1, 0, false⟩

/-- Sustained axis input (0, -1) with the A (fast) modifier held. -/
def upFastInput : Nat → InputSnapshot := fun _ => ⟨0, -1, true⟩

-- Helper lemmas ------------------------------------------------------

theorem clamp_bounds (x lo hi : Int) (h : lo ≤ hi) :
    lo ≤ clamp x lo hi ∧ clamp x lo hi ≤ hi := by
  unfold clamp; split_ifs <;> omega

theorem run_succ (inp : Nat → InputSnapshot) (n : Nat) :
    run inp (n + 1) = stepFrame (run inp n) (inp n) := rfl

theorem stepFrame_ball_x (s : State) (i : InputSnapshot) :
    (stepFrame s i).ball_x = clamp (s.ball_x + s.x_velocity) 0 (WIDTH - 16) := rfl

theorem stepFrame_ball_y (s : State) (i : InputSnapshot) :
    (stepFrame s i).ball_y = clamp (s.ball_y + s.y_velocity) 0 (HEIGHT - 16) := rfl

theorem stepFrame_dave_x (s : State) (i : InputSnapshot) :
    (stepFrame s i).dave_x = clamp (s.dave_x + s.dave_vel_x) 0 (WIDTH - 16) := rfl

theorem stepFrame_dave_y (s : State) (i : InputSnapshot) :
    (stepFrame s i).dave_y = clamp (s.dave_y + s.dave_vel_y) (-8) (HEIGHT - 32) := rfl

/-- Any post-iteration state has the ball in
`[0, WIDTH-16] × [0, HEIGHT-16]` and Dave in
`[0, WIDTH-16] × [-8, HEIGHT-32]`. -/
theorem stepFrame_in_bounds (s : State) (i : InputSnapshot) :
    (0 ≤ (stepFrame s i).ball_x ∧ (stepFrame s i).ball_x ≤ WIDTH - 16) ∧
    (0 ≤ (stepFrame s i).ball_y ∧ (stepFrame s i).ball_y ≤ HEIGHT - 16) ∧
    (0 ≤ (stepFrame s i).dave_x ∧ (stepFrame s i).dave_x ≤ WIDTH - 16) ∧
    (-8 ≤ (stepFrame s i).dave_y ∧ (stepFrame s i).dave_y ≤ HEIGHT - 32) := by
  refine ⟨?_, ?_, ?_, ?_⟩
  · rw [stepFrame_ball_x]; exact clamp_bounds _ _ _ (by decide)
  · rw [stepFrame_ball_y]; exact clamp_bounds _ _ _ (by decide)
  · rw [stepFrame_dave_x]; exact clamp_bounds _ _ _ (by decide)
  · rw [stepFrame_dave_y]; exact clamp_bounds _ _ _ (by decide)

/-- In the left-edge scenario the ball's x coordinate stays 0 and the
staged velocity stays nonpositive, for every frame count. -/
theorem leftEdge_invariant (n : Nat) :
    (runFrom leftEdgeState leftInput n).ball_x = 0 ∧
    (runFrom leftEdgeState leftInput n).x_velocity ≤ 0 := by
  induction n with
  | zero => exact ⟨rfl, by decide⟩
  | succ n ih =>
    obtain ⟨hx, hv⟩ := ih
    constructor
    · show clamp ((runFrom leftEdgeState leftInput n).ball_x +
        (runFrom leftEdgeState leftInput n).x_velocity) 0 (WIDTH - 16) = 0
      rw [hx]
      unfold clamp WIDTH
      split_ifs <;> omega
    · show deriveVelX (leftInput n) ≤ 0
      norm_num [leftInput, deriveVelX]

/-- The two input-driven entities of the loop. -/
inductive EntityId
  | ball
  | dave
  deriving DecidableEq, BEq

/-- The observable steps of one loop iteration. -/
inductive FrameEvent
  | integrate : EntityId → FrameEvent
  | derive : EntityId → FrameEvent
  | push : EntityId → FrameEvent
  | vblankWait : FrameEvent
  | commit : FrameEvent
  | advance : FrameEvent
  deriving DecidableEq, BEq

/-- The loop body's steps in source order: ball integrate, ball velocity
derivation, ball sprite push, then the same three for Dave, then
`busy_wait_for_vblank()`, `object.commit()`, `input.update()`. -/
def frameTrace : List FrameEvent :=
  [.integrate .ball, .derive .ball, .push .ball,
   .integrate .dave, .derive .dave, .push .dave,
   .vblankWait, .commit, .advance]

-- Claim theorems -----------------------------------------------------

/-- C1: after every integrate step of every loop iteration, for every
sequence of input snapshots, the ball's position stays within
`[0, WIDTH-16] × [0, HEIGHT-16]` and Dave's within
`[0, WIDTH-16] × [-8, HEIGHT-32]`; and an entity at x = 0 under
sustained axis input (-1, 0) keeps x = 0 forever (in particular for the
scenario's 3 frames), never going negative. -/
theorem clamping_invariant :
    (∀ inp : Nat → InputSnapshot, ∀ n : Nat,
      (0 ≤ (run inp (n + 1)).ball_x ∧ (run inp (n + 1)).ball_x ≤ WIDTH - 16) ∧
      (0 ≤ (run inp (n + 1)).ball_y ∧ (run inp (n + 1)).ball_y ≤ HEIGHT - 16) ∧
      (0 ≤ (run inp (n + 1)).dave_x ∧ (run inp (n + 1)).dave_x ≤ WIDTH - 16) ∧
      (-8 ≤ (run inp (n + 1)).dave_y ∧ (run inp (n + 1)).dave_y ≤ HEIGHT - 32)) ∧
    (∀ n : Nat, (runFrom leftEdgeState leftInput n).ball_x = 0) := by
  constructor
  · intro inp n
    rw [run_succ]
    exact stepFrame_in_bounds _ _
  · intro n
    exact (leftEdge_invariant n).1

/-- C2: the velocity derived from the snapshot read during iteration `n`
is the one integrated at the start of iteration `n + 1`; the first
iteration integrates with the initial velocity 0, so the ball stays at
(50, 50) after one frame whatever the input; in the concrete scenario
with sustained input (1, 0) and no modifier the ball is still at
(50, 50) after the frame that read the input and at (51, 50) after the
following frame. -/
theorem one_frame_lag :
    (∀ inp : Nat → InputSnapshot, ∀ n : Nat,
      (run inp (n + 1)).x_velocity = deriveVelX (inp n) ∧
      (run inp (n + 1)).y_velocity = deriveVelY (inp n) ∧
      (run inp (n + 2)).ball_x =
        clamp ((run inp (n + 1)).ball_x + deriveVelX (inp n)) 0 (WIDTH - 16) ∧
      (run inp (n + 2)).ball_y =
        clamp ((run inp (n + 1)).ball_y + deriveVelY (inp n)) 0 (HEIGHT - 16)) ∧
    (∀ inp : Nat → InputSnapshot,
      (run inp 1).ball_x = 50 ∧ (run inp 1).ball_y = 50) ∧
    ((run rightInput 1).ball_x = 50 ∧ (run rightInput 1).ball_y = 50 ∧
     (run rightInput 2).ball_x = 51 ∧ (run rightInput 2).ball_y = 50) := by
  refine ⟨?_, ?_, by decide⟩
  · intro inp n
    refine ⟨rfl, rfl, ?_, ?_⟩
    · rw [run_succ (n := n + 1), stepFrame_ball_x]
      rfl
    · rw [run_succ (n := n + 1), stepFrame_ball_y]
      rfl
  · intro inp
    constructor
    · show clamp (50 + 0) 0 (WIDTH - 16) = 50
      decide
    · show clamp (50 + 0) 0 (HEIGHT - 16) = 50
      decide

/-- C3: for every valid snapshot, each derived velocity component equals
the axis trinary times 2 when A is held and times 1 otherwise, and every
derived component lies in {-2, -1, 0, 1, 2}. -/
theorem fast_modifier_doubling (i : InputSnapshot) (h : ValidSnapshot i) :
    deriveVelX i = i.x_tri * (if i.a_pressed then 2 else 1) ∧
    deriveVelY i = i.y_tri * (if i.a_pressed then 2 else 1) ∧
    (deriveVelX i = -2 ∨ deriveVelX i = -1 ∨ deriveVelX i = 0 ∨
      deriveVelX i = 1 ∨ deriveVelX i = 2) ∧
    (deriveVelY i = -2 ∨ deriveVelY i = -1 ∨ deriveVelY i = 0 ∨
      deriveVelY i = 1 ∨ deriveVelY i = 2) := by
  obtain ⟨xt, yt, a⟩ := i
  obtain ⟨hx, hy⟩ := h
  dsimp only at hx hy
  rcases hx with rfl | rfl | rfl <;> rcases hy with rfl | rfl | rfl <;>
    cases a <;> decide

/-- C3 witness: the theorem applied at the concrete snapshot
(x_tri = 1, y_tri = -1, A held), where the derived velocity is (2, -2). -/
theorem fast_modifier_doubling_witness :
    ValidSnapshot ⟨1, -1, true⟩ ∧
    deriveVelX ⟨1, -1, true⟩ = 2 ∧ deriveVelY ⟨1, -1, true⟩ = -2 := by
  have hp : ValidSnapshot ⟨1, -1, true⟩ := ⟨Or.inr (Or.inr rfl), Or.inl rfl⟩
  have h := fast_modifier_doubling ⟨1, -1, true⟩ hp
  exact ⟨hp, h.1.trans (by decide), h.2.1.trans (by decide)⟩

/-- C4: after every number of iterations, and for every input sequence,
Dave's staged velocity pair equals the ball's, because both are derived
from the identical snapshot within each iteration (and both start
at 0). -/
theorem lockstep_velocities :
    ∀ inp : Nat → InputSnapshot, ∀ n : Nat,
      (run inp n).dave_vel_x = (run inp n).x_velocity ∧
      (run inp n).dave_vel_y = (run inp n).y_velocity := by
  intro inp n
  cases n with
  | zero => exact ⟨rfl, rfl⟩
  | succ n => exact ⟨rfl, rfl⟩

/-- C5: the loop body's trace advances the input exactly once, strictly
after commit, which follows the vblank wait; each entity's integrate
precedes its derive, which precedes its push, which precedes the vblank
wait; every derivation happens before the advance, and semantically both
entities' post-iteration velocities are derived from the one snapshot
the iteration read. -/
theorem frame_order :
    frameTrace.count .advance = 1 ∧
    frameTrace.indexOf .commit < frameTrace.indexOf .advance ∧
    frameTrace.indexOf .vblankWait < frameTrace.indexOf .commit ∧
    (∀ e : EntityId,
      frameTrace.indexOf (.integrate e) < frameTrace.indexOf (.derive e) ∧
      frameTrace.indexOf (.derive e) < frameTrace.indexOf (.push e) ∧
      frameTrace.indexOf (.push e) < frameTrace.indexOf .vblankWait ∧
      frameTrace.indexOf (.derive e) < frameTrace.indexOf .advance) ∧
    (∀ (s : State) (i : InputSnapshot),
      (stepFrame s i).x_velocity = deriveVelX i ∧
      (stepFrame s i).dave_vel_x = deriveVelX i ∧
      (stepFrame s i).y_velocity = deriveVelY i ∧
      (stepFrame s i).dave_vel_y = deriveVelY i) := by
  refine ⟨by decide, by decide, by decide, ?_, ?_⟩
  · intro e
    cases e <;> exact ⟨by decide, by decide, by decide, by decide⟩
  · intro s i
    exact ⟨rfl, rfl, rfl, rfl⟩

/-- C6 counterexample: at paddle creation the mid segment carries no
flip at all (`Paddle::new` only calls `set_vflip(true)` on the end
segment), refuting "mid and end segments flipped"; shown at the concrete
creation arguments `main` uses, before the call-site mirroring. -/
theorem paddle_mid_not_flipped :
    (Paddle.new (240 - 16 - 8) 8).mid.vflip = false ∧
    (Paddle.new (240 - 16 - 8) 8).mid.hflip = false ∧
    (Paddle.new (240 - 16 - 8) 8).end_.vflip = true := by
  decide

/-- C6 amended: paddle creation shows all three segments, vertically
flips only the end segment (start and mid are unflipped), and sets the
initial position with per-segment offsets 0, 16, 32; the mirrored
right-side paddle additionally gets `set_hflip(true)` on all three
segments at the call site. -/
theorem paddle_creation (x y : Int) :
    ((Paddle.new x y).start.visible = true ∧
     (Paddle.new x y).mid.visible = true ∧
     (Paddle.new x y).end_.visible = true) ∧
    ((Paddle.new x y).start.vflip = false ∧
     (Paddle.new x y).mid.vflip = false ∧
     (Paddle.new x y).end_.vflip = true) ∧
    ((Paddle.new x y).start.hflip = false ∧
     (Paddle.new x y).mid.hflip = false ∧
     (Paddle.new x y).end_.hflip = false) ∧
    ((Paddle.new x y).start.x = x ∧ (Paddle.new x y).start.y = y ∧
     (Paddle.new x y).mid.x = x ∧ (Paddle.new x y).mid.y = y + 16 ∧
     (Paddle.new x y).end_.x = x ∧ (Paddle.new x y).end_.y = y + 32) ∧
    (mainPaddleB.start.hflip = true ∧ mainPaddleB.mid.hflip = true ∧
     mainPaddleB.end_.hflip = true ∧
     mainPaddleB.start.x = 216 ∧ mainPaddleB.start.y = 8 ∧
     mainPaddleB.mid.y = 24 ∧ mainPaddleB.end_.y = 40) := by
  exact ⟨⟨rfl, rfl, rfl⟩, ⟨rfl, rfl, rfl⟩, ⟨rfl, rfl, rfl⟩,
    ⟨rfl, rfl, rfl, rfl, rfl, rfl⟩, by decide⟩

/-- C7: `set_position x y` writes x to every segment's horizontal
coordinate, writes y, y + 16, y + 32 to the start, mid and end segments'
vertical coordinates, and leaves every other attribute (visibility and
both flips of every segment) unchanged. -/
theorem set_position_spec (p : Paddle) (x y : Int) :
    ((p.set_position x y).start.x = x ∧
     (p.set_position x y).mid.x = x ∧
     (p.set_position x y).end_.x = x) ∧
    ((p.set_position x y).start.y = y ∧
     (p.set_position x y).mid.y = y + 16 ∧
     (p.set_position x y).end_.y = y + 32) ∧
    ((p.set_position x y).start.visible = p.start.visible ∧
     (p.set_position x y).start.hflip = p.start.hflip ∧
     (p.set_position x y).start.vflip = p.start.vflip) ∧
    ((p.set_position x y).mid.visible = p.mid.visible ∧
     (p.set_position x y).mid.hflip = p.mid.hflip ∧
     (p.set_position x y).mid.vflip = p.mid.vflip) ∧
    ((p.set_position x y).end_.visible = p.end_.visible ∧
     (p.set_position x y).end_.hflip = p.end_.hflip ∧
     (p.set_position x y).end_.vflip = p.end_.vflip) := by
  exact ⟨⟨rfl, rfl, rfl⟩, ⟨rfl, rfl, rfl⟩, ⟨rfl, rfl, rfl⟩,
    ⟨rfl, rfl, rfl⟩, ⟨rfl, rfl, rfl⟩⟩

/-- C8: a loop iteration never touches the paddle's sprite state, and
never changes the ball's or Dave's visibility; hence after any number of
iterations under any input sequence the paddle still has exactly its
startup state. -/
theorem paddle_static :
    (∀ (s : State) (i : InputSnapshot),
      (stepFrame s i).paddle_b = s.paddle_b ∧
      (stepFrame s i).ball_obj.visible = s.ball_obj.visible ∧
      (stepFrame s i).dave_obj.visible = s.dave_obj.visible) ∧
    (∀ (inp : Nat → InputSnapshot) (n : Nat),
      (run inp n).paddle_b = mainPaddleB) := by
  refine ⟨fun s i => ⟨rfl, rfl, rfl⟩, ?_⟩
  intro inp n
  induction n with
  | zero => rfl
  | succ n ih => exact ih

/-- In the Dave fast-up scenario (Dave starts at (120, 80), sustained
axis input (0, -1) with A held), after `n + 1` iterations Dave's y
coordinate is `max (-8) (80 - 2n)`, his velocity is (0, -2), and his x
coordinate is still 120. -/
theorem upFast_progress (n : Nat) :
    (run upFastInput (n + 1)).dave_y = max (-8) (80 - 2 * (n : Int)) ∧
    (run upFastInput (n + 1)).dave_vel_y = -2 ∧
    (run upFastInput (n + 1)).dave_x = 120 ∧
    (run upFastInput (n + 1)).dave_vel_x = 0 := by
  induction n with
  | zero => exact ⟨by decide, by decide, by decide, by decide⟩
  | succ n ih =>
    obtain ⟨hy, hvy, hx, hvx⟩ := ih
    refine ⟨?_, ?_, ?_, ?_⟩
    · show clamp ((run upFastInput (n + 1)).dave_y +
        (run upFastInput (n + 1)).dave_vel_y) (-8) (HEIGHT - 32) = _
      rw [hy, hvy]
      simp only [max_def]
      unfold clamp HEIGHT
      split_ifs <;> omega
    · show deriveVelY (upFastInput (n + 1)) = -2
      norm_num [upFastInput, deriveVelY]
    · show clamp ((run upFastInput (n + 1)).dave_x +
        (run upFastInput (n + 1)).dave_vel_x) 0 (WIDTH - 16) = 120
      rw [hx, hvx]
      unfold clamp WIDTH
      norm_num
    · show deriveVelX (upFastInput (n + 1)) = 0
      norm_num [upFastInput, deriveVelX]

/-- C9: in the Dave fast-up scenario, every iteration from the first on
derives vertical velocity -2, and from iteration 45 on Dave's y
coordinate has reached and stays at the lower clamp bound -8 (not 0). -/
theorem dave_clamps_at_minus_eight :
    (∀ n : Nat, (run upFastInput (n + 1)).dave_vel_y = -2) ∧
    (∀ n : Nat, 45 ≤ n → (run upFastInput n).dave_y = -8) := by
  constructor
  · exact fun n => (upFast_progress n).2.1
  · intro n hn
    obtain ⟨m, rfl⟩ : ∃ m, n = m + 1 := ⟨n - 1, by omega⟩
    rw [(upFast_progress m).1, max_def]
    split_ifs <;> omega

/-- C9 witness: at frame 50 the vertical velocity is -2 and Dave's y
coordinate is -8. -/
theorem dave_clamps_at_minus_eight_witness :
    (run upFastInput 50).dave_vel_y = -2 ∧
    (45 ≤ 50 ∧ (run upFastInput 50).dave_y = -8) :=
  ⟨dave_clamps_at_minus_eight.1 49,
   ⟨by decide, dave_clamps_at_minus_eight.2 50 (by decide)⟩⟩

/-- A value already in `[0, 65535]` survives the `as u16` cast. -/
theorem u16cast_of_bounds (z : Int) (h0 : 0 ≤ z) (h1 : z ≤ 65535) :
    (u16cast z : Int) = z := by
  unfold u16cast
  omega

/-- C10: each iteration stages exactly the `u16` cast (value mod 2^16)
of the clamped logical position of the ball and of Dave; the cast of -8,
the lowest value Dave's y can take, is 65528, and that is what is staged
in the fast-up scenario once Dave rests at y = -8; for the ball the cast
is lossless: the staged coordinate, read back as an integer, equals the
logical coordinate after every iteration under every input. -/
theorem u16_staging :
    (∀ (s : State) (i : InputSnapshot),
      (stepFrame s i).ball_obj.x = u16cast (stepFrame s i).ball_x ∧
      (stepFrame s i).ball_obj.y = u16cast (stepFrame s i).ball_y ∧
      (stepFrame s i).dave_obj.x = u16cast (stepFrame s i).dave_x ∧
      (stepFrame s i).dave_obj.y = u16cast (stepFrame s i).dave_y) ∧
    u16cast (-8) = 65528 ∧
    (∀ (inp : Nat → InputSnapshot) (n : Nat),
      ((run inp (n + 1)).ball_obj.x : Int) = (run inp (n + 1)).ball_x ∧
      ((run inp (n + 1)).ball_obj.y : Int) = (run inp (n + 1)).ball_y) ∧
    ((run upFastInput 50).dave_y = -8 ∧
     (run upFastInput 50).dave_obj.y = 65528) := by
  refine ⟨fun s i => ⟨rfl, rfl, rfl, rfl⟩, by decide, ?_, ?_⟩
  · intro inp n
    rw [run_succ]
    obtain ⟨⟨hx0, hx1⟩, ⟨hy0, hy1⟩, _, _⟩ :=
      stepFrame_in_bounds (run inp n) (inp n)
    unfold WIDTH at hx1
    unfold HEIGHT at hy1
    constructor
    · have e : (stepFrame (run inp n) (inp n)).ball_obj.x =
        u16cast ((stepFrame (run inp n) (inp n)).ball_x) := rfl
      rw [e]
      exact u16cast_of_bounds _ hx0 (by omega)
    · have e : (stepFrame (run inp n) (inp n)).ball_obj.y =
        u16cast ((stepFrame (run inp n) (inp n)).ball_y) := rfl
      rw [e]
      exact u16cast_of_bounds _ hy0 (by omega)
  · have h50 : run upFastInput 50 = stepFrame (run upFastInput 49) (upFastInput 49) :=
      run_succ upFastInput 49
    have hp := (upFast_progress 49).1
    rw [run_succ] at hp
    have hy : (run upFastInput 50).dave_y = -8 := by
      rw [h50, hp]
      decide
    have estep : ∀ (s : State) (i : InputSnapshot),
        (stepFrame s i).dave_obj.y = u16cast (stepFrame s i).dave_y :=
      fun s i => rfl
    refine ⟨hy, ?_⟩
    rw [h50, estep (run upFastInput 49) (upFastInput 49), hp]
    decide
